import Mathlib

/-!
Verification of the sales-report pipeline (`src/sales_report.py`).

The program reads a CSV of sales records, validates the header, coerces
the `Date`, `Quantity` and `Unit Price` columns (dropping rows whose
coercion fails, with warning counts), derives `Total Sale = Quantity *
Unit Price`, computes four grouped summaries, prints them, and writes
them to a four-sheet spreadsheet.

Shallow embedding conventions:
* a raw cell that pandas `to_datetime`/`to_numeric` with `errors="coerce"`
  would turn into `NaT`/`NaN` is modelled as `none`; a parsed value as
  `some v`.  Text cells (`Product`, `Salesperson`) are `Option String`
  because a missing CSV cell is `NaN` and pandas `groupby` drops `NaN`
  keys.
* numbers are rationals (`ℚ`); dates are `(year, month, day)` triples.
* `sys.exit(msg)` is an `ExitReason`; printing is a list of structured
  console items; the spreadsheet is a `Sheets` record.
-/

/-- A calendar date as produced by `pd.to_datetime`. -/
structure PDate where
  year : Nat
  month : Nat
  day : Nat
deriving DecidableEq, Repr

/-- One input row after pandas cell-level coercion: `none` marks a cell that
`to_datetime` / `to_numeric` with `errors="coerce"` turns into `NaT`/`NaN`
(unparsable or missing). -/
structure RawRow where
  date : Option PDate
  product : Option String
  quantity : Option ℚ
  unitPrice : Option ℚ
  salesperson : Option String
deriving DecidableEq, Repr

/-- One row of the cleaned table returned by `read_sales_data`: `Date`,
`Quantity` and `Unit Price` are valid, and `Total Sale` has been computed. -/
structure CleanRow where
  date : PDate
  product : Option String
  quantity : ℚ
  unitPrice : ℚ
  salesperson : Option String
  totalSale : ℚ
deriving DecidableEq, Repr

/-- The data `read_sales_data` produces: the cleaned `DataFrame` plus the two
warning counts it printed (`invalid_dates` and `invalid_price_qty`). -/
structure LoadResult where
  cleaned : List CleanRow
  dateWarnings : Nat
  numericWarnings : Nat
deriving DecidableEq, Repr

/-- Conversion of a fully valid raw row into a cleaned row, including the
`Total Sale = Quantity * Unit Price` derivation of line 66; `none` when any
of the three coerced fields is missing. -/
def mkClean (r : RawRow) : Option CleanRow :=
  match r.date, r.quantity, r.unitPrice with
  | some d, some q, some p =>
      some ⟨d, r.product, q, p, r.salesperson, q * p⟩
  | _, _, _ => none

/-- The row-cleaning body of `read_sales_data` (lines 50–68): count and drop
rows with unparsable dates, then count and drop rows with unparsable
`Quantity` or `Unit Price`, then derive `Total Sale`.  Mirrors the source:
the date `dropna` happens before numeric coercion, and the numeric tally is
the sum of the two per-column `isna` counts. -/
def readSalesDataRows (rows : List RawRow) : LoadResult :=
  let invalid_dates := (rows.filter (fun r => r.date.isNone)).length
  let rows1 := if invalid_dates > 0 then rows.filter (fun r => r.date.isSome) else rows
  let invalid_price_qty :=
    (rows1.filter (fun r => r.quantity.isNone)).length
      + (rows1.filter (fun r => r.unitPrice.isNone)).length
  let rows2 :=
    if invalid_price_qty > 0 then
      rows1.filter (fun r => r.quantity.isSome && r.unitPrice.isSome)
    else rows1
  ⟨rows2.filterMap mkClean, invalid_dates, invalid_price_qty⟩

/-- The five required column names of `read_sales_data` (line 37). -/
def requiredColumns : List String :=
  ["Date", "Product", "Quantity", "Unit Price", "Salesperson"]

/-- A parsed CSV file: its header row and its data rows. -/
structure CSVFile where
  header : List String
  rows : List RawRow
deriving DecidableEq

/-- The required columns absent from a header (line 47,
`required_columns - set(df.columns)`). -/
def missingColumns (header : List String) : List String :=
  requiredColumns.filter (fun c => ¬ c ∈ header)

example : readSalesDataRows [⟨none, some "P", none, some 1, some "A"⟩]
    = ⟨[], 1, 0⟩ := by decide

example : readSalesDataRows [⟨some ⟨2024, 1, 5⟩, some "P", none, none, some "A"⟩]
    = ⟨[], 0, 2⟩ := by decide

example : readSalesDataRows [⟨some ⟨2024, 1, 5⟩, some "W", some 2, some 10, some "A"⟩]
    = ⟨[⟨⟨2024, 1, 5⟩, some "W", 2, 10, some "A", 20⟩], 0, 0⟩ := by
  simp [readSalesDataRows, mkClean]
  norm_num

example : missingColumns ["Date", "Product", "Quantity", "Salesperson"]
    = ["Unit Price"] := by decide

/-- The distinct elements of a list (each distinct value kept once). -/
def dedupKeys {K : Type} [DecidableEq K] : List K → List K
  | [] => []
  | k :: rest => if k ∈ rest then dedupKeys rest else k :: dedupKeys rest


/-- Pandas `groupby(key, as_index=False)[Total Sale].sum()`: one output row
per distinct key occurring in the table, keys in the sorted order pandas
produces (`sort=True` default, order `le`), each paired with the sum of
`Total Sale` over the rows carrying that key.  Rows whose key is `NaN`
(`none`) belong to no group: pandas `groupby` drops them. -/
def groupTotals {K : Type} [DecidableEq K] (key : CleanRow → Option K)
    (le : K → K → Bool) (rows : List CleanRow) : List (K × ℚ) :=
  ((dedupKeys (rows.filterMap key)).mergeSort le).map
    (fun k => (k, ((rows.filter (fun r => key r = some k)).map (·.totalSale)).sum))

/-- Boolean string order used by pandas when sorting `groupby` keys. -/
def strLe (a b : String) : Bool := a ≤ b

/-- The `sort_values(by="Total Sale", ascending=False)` comparison. -/
def descTotal {K : Type} (a b : K × ℚ) : Bool := b.2 ≤ a.2

/-- Chronological (lexicographic) order on `(year, month)` period keys. -/
def ymLe (a b : Nat × Nat) : Bool := a.1 < b.1 ∨ (a.1 = b.1 ∧ a.2 ≤ b.2)

/-- Boolean order on year keys. -/
def natLe (a b : Nat) : Bool := a ≤ b

/-- `generate_product_sales` (lines 71–75): group by `Product`, sum
`Total Sale`, sort by `Total Sale` descending. -/
def generate_product_sales (rows : List CleanRow) : List (String × ℚ) :=
  (groupTotals (fun r => r.product) strLe rows).mergeSort descTotal

/-- `generate_salesperson_sales` (lines 78–82): group by `Salesperson`, sum
`Total Sale`, sort by `Total Sale` descending. -/
def generate_salesperson_sales (rows : List CleanRow) : List (String × ℚ) :=
  (groupTotals (fun r => r.salesperson) strLe rows).mergeSort descTotal

/-- The `YearMonth` period `df["Date"].dt.to_period("M")` derives for a row. -/
def yearMonthKey (r : CleanRow) : Nat × Nat := (r.date.year, r.date.month)

/-- The `monthly` table of `generate_monthly_sales` (line 90) before the final
`astype(str)`: group by the `YearMonth` period, sum `Total Sale`, sort by
`YearMonth` ascending. -/
def monthly_groups (rows : List CleanRow) : List ((Nat × Nat) × ℚ) :=
  (groupTotals (fun r => some (yearMonthKey r)) ymLe rows).mergeSort
    (fun a b => ymLe a.1 b.1)

/-- Textual form of a period key, `"YYYY-MM"` as `str` of a monthly Period. -/
def yearMonthStr (ym : Nat × Nat) : String :=
  toString ym.1 ++ "-" ++ (if ym.2 < 10 then "0" else "") ++ toString ym.2

/-- `generate_monthly_sales` (lines 85–92): the sorted `monthly_groups` table
with its `YearMonth` column converted to strings (line 91 `astype(str)`). -/
def generate_monthly_sales (rows : List CleanRow) : List (String × ℚ) :=
  (monthly_groups rows).map (fun g => (yearMonthStr g.1, g.2))

/-- `generate_ytd_sales` (lines 95–100): group by `Year` (from `Date`), sum
`Total Sale`, sort by `Year` ascending. -/
def generate_ytd_sales (rows : List CleanRow) : List (Nat × ℚ) :=
  (groupTotals (fun r => some r.date.year) natLe rows).mergeSort
    (fun a b => natLe a.1 b.1)

section ScenarioCheck

/-- First row of the spec's worked scenario. -/
def scenarioRow1 : CleanRow := ⟨⟨2024, 1, 5⟩, some "Widget", 2, 10, some "Alice", 20⟩

/-- Second row of the spec's worked scenario. -/
def scenarioRow2 : CleanRow := ⟨⟨2024, 2, 1⟩, some "Widget", 1, 10, some "Bob", 10⟩

example : generate_product_sales [scenarioRow1, scenarioRow2] = [("Widget", 30)] := by
  norm_num +decide [generate_product_sales, groupTotals, scenarioRow1, scenarioRow2,
    dedupKeys, List.mergeSort, List.merge, strLe, descTotal, List.filterMap_cons]

example : generate_salesperson_sales [scenarioRow1, scenarioRow2]
    = [("Alice", 20), ("Bob", 10)] := by
  norm_num +decide [generate_salesperson_sales, groupTotals, scenarioRow1, scenarioRow2,
    dedupKeys, List.mergeSort, List.merge, strLe, descTotal, List.filterMap_cons]

example : generate_monthly_sales [scenarioRow1, scenarioRow2]
    = [("2024-01", 20), ("2024-02", 10)] := by
  norm_num +decide [generate_monthly_sales, monthly_groups, groupTotals, scenarioRow1,
    scenarioRow2, dedupKeys, List.mergeSort, List.merge, ymLe, yearMonthKey,
    yearMonthStr, List.filterMap_cons]

example : generate_ytd_sales [scenarioRow1, scenarioRow2] = [(2024, 30)] := by
  norm_num +decide [generate_ytd_sales, groupTotals, scenarioRow1, scenarioRow2,
    dedupKeys, List.mergeSort, List.merge, natLe, yearMonthKey, List.filterMap_cons]

end ScenarioCheck

/-- A cleaned row whose `Product` is missing (`NaN`) while `Date`, `Quantity`,
`Unit Price` (and hence `Total Sale`) are valid. -/
def nanProductRow : CleanRow := ⟨⟨2024, 1, 5⟩, none, 1, 10, some "Alice", 10⟩

/-- A raw row whose `Date` is unparsable and whose `Quantity` is also
unparsable (the `Unit Price` parses). -/
def bothInvalidRow : RawRow := ⟨none, some "Pen", none, some 1, some "Alice"⟩

/-- A raw row with a valid `Date` whose `Quantity` and `Unit Price` are both
unparsable. -/
def bothNumericInvalidRow : RawRow := ⟨some ⟨2024, 1, 5⟩, some "Pen", none, none, some "Bob"⟩

/-- The cleaned `DataFrame` as the aggregation functions see it: its rows
plus the names of derived columns present on the frame (the base columns
`Date`, `Product`, `Quantity`, `Unit Price`, `Salesperson`, `Total Sale`
live in the rows; `derivedCols` records extra columns such as `YearMonth`
and `Year` that column assignment adds). -/
structure DataFrame where
  rows : List CleanRow
  derivedCols : List String
deriving DecidableEq, Repr

/-- Pandas column assignment `df[c] = ...` for a column derived from `Date`:
the column is (over)written on the caller's frame, so `c` is recorded when
absent. -/
def setCol (df : DataFrame) (c : String) : DataFrame :=
  if c ∈ df.derivedCols then df else ⟨df.rows, df.derivedCols ++ [c]⟩

/-- `generate_product_sales` at the frame level: it only reads `df`, so the
call returns the summary and leaves the frame as it was. -/
def generate_product_sales_df (df : DataFrame) : List (String × ℚ) × DataFrame :=
  (generate_product_sales df.rows, df)

/-- `generate_salesperson_sales` at the frame level: read-only like the
product summary. -/
def generate_salesperson_sales_df (df : DataFrame) :
    List (String × ℚ) × DataFrame :=
  (generate_salesperson_sales df.rows, df)

/-- `generate_monthly_sales` at the frame level: line 89 executes
`df["YearMonth"] = df["Date"].dt.to_period("M")`, a column assignment on the
caller's frame, before grouping. -/
def generate_monthly_sales_df (df : DataFrame) :
    List (String × ℚ) × DataFrame :=
  (generate_monthly_sales df.rows, setCol df "YearMonth")

/-- `generate_ytd_sales` at the frame level: line 99 executes
`df["Year"] = df["Date"].dt.year`, a column assignment on the caller's
frame, before grouping. -/
def generate_ytd_sales_df (df : DataFrame) : List (Nat × ℚ) × DataFrame :=
  (generate_ytd_sales df.rows, setCol df "Year")

/-- A cleaned frame with no derived columns, as `read_sales_data` returns
it. -/
def freshDF (rows : List CleanRow) : DataFrame := ⟨rows, []⟩

/-- The input file as `pd.read_csv` sees it: missing, unreadable as CSV, or
parsed into a header and rows. -/
inductive FileState
  | absent
  | unparsable
  | parsed (f : CSVFile)
deriving DecidableEq

/-- The distinct terminal `sys.exit` messages of the program. -/
inductive ExitReason
  | fileNotFound
  | parseError
  | schemaError (missing : List String)
  | noValidData
  | writeError
deriving DecidableEq

/-- `read_sales_data` (lines 32–68): terminal errors for a missing file, an
unreadable file, or missing required columns; otherwise the row cleaning of
`readSalesDataRows`.  The schema check happens before any row is touched. -/
def read_sales_data (fs : FileState) : Except ExitReason LoadResult :=
  match fs with
  | .absent => .error .fileNotFound
  | .unparsable => .error .parseError
  | .parsed f =>
    if missingColumns f.header = [] then .ok (readSalesDataRows f.rows)
    else .error (.schemaError (missingColumns f.header))

/-- One unit of console output, structurally (rendering to text is pure
formatting). -/
inductive ConsoleItem
  | banner
  | dateWarning (n : Nat)
  | numericWarning (n : Nat)
  | table (title : String) (body : List (String × ℚ))
  | excelSaved (path : String)
  | success
deriving DecidableEq

/-- The warnings `read_sales_data` prints (lines 53–54 and 61–62): each
tally is printed only when positive. -/
def warningItems (lr : LoadResult) : List ConsoleItem :=
  (if lr.dateWarnings > 0 then [ConsoleItem.dateWarning lr.dateWarnings] else [])
    ++ (if lr.numericWarnings > 0 then [ConsoleItem.numericWarning lr.numericWarnings]
        else [])

/-- The four sheets `save_to_excel` writes, in order. -/
structure Sheets where
  productSheet : List (String × ℚ)
  salespersonSheet : List (String × ℚ)
  monthlySheet : List (String × ℚ)
  ytdSheet : List (Nat × ℚ)
deriving DecidableEq

/-- What one run of `main` (lines 130–153) produces: the console items in
order, the terminal error if `sys.exit` was reached, and the sheets written
to the output file if the write happened. -/
structure RunOutput where
  console : List ConsoleItem
  exitError : Option ExitReason
  written : Option Sheets
deriving DecidableEq

/-- The body of `main` as a function of the input file state and of whether
the spreadsheet write succeeds: read and clean, exit on empty, compute the
four summaries, print the four tables, write the spreadsheet, print the
success banner. -/
def runCore (fs : FileState) (writeOk : Bool) : RunOutput :=
  match read_sales_data fs with
  | .error e => ⟨[ConsoleItem.banner], some e, none⟩
  | .ok lr =>
    if lr.cleaned = [] then
      ⟨ConsoleItem.banner :: warningItems lr, some .noValidData, none⟩
    else
      let product_sales := generate_product_sales lr.cleaned
      let salesperson_sales := generate_salesperson_sales lr.cleaned
      let monthly_sales := generate_monthly_sales lr.cleaned
      let ytd_sales := generate_ytd_sales lr.cleaned
      let tables :=
        [ConsoleItem.table "Total Sales per Product" product_sales,
         ConsoleItem.table "Total Sales per Salesperson" salesperson_sales,
         ConsoleItem.table "Monthly Sales Summary" monthly_sales,
         ConsoleItem.table "Year-to-Date Sales"
           (ytd_sales.map (fun g => (toString g.1, g.2)))]
      if writeOk then
        ⟨ConsoleItem.banner :: warningItems lr ++ tables
            ++ [ConsoleItem.excelSaved "sales_report.xlsx", ConsoleItem.success],
          none,
          some ⟨product_sales, salesperson_sales, monthly_sales, ytd_sales⟩⟩
      else
        ⟨ConsoleItem.banner :: warningItems lr ++ tables, some .writeError, none⟩

/-- The environment of one program run: the input file, whether the output
path is writable, and what the output file held before the run. -/
structure World where
  file : FileState
  writeOk : Bool
  prevOutput : Option Sheets
deriving DecidableEq

namespace SalesReport

/-- `main` plus its effect on the output file: the run's output, and the
content of the output file after the run (a failing run leaves any previous
output file untouched). -/
def main (w : World) : RunOutput × Option Sheets :=
  let out := runCore w.file w.writeOk
  (out, match out.written with
        | some s => some s
        | none => w.prevOutput)

end SalesReport

/-- The module-level names defined in `sales_report.py` by the time the
guard on line 156 runs, each paired with the string value it holds when it
is a string (`none` for module and function objects); `nameVal` is the
value the interpreter gave `__name__`. -/
def moduleEnv (nameVal : String) : List (String × Option String) :=
  [("pd", none), ("Path", none), ("datetime", none), ("sys", none),
   ("INPUT_FILE", some "sales_data.csv"),
   ("OUTPUT_FILE", some "sales_report.xlsx"),
   ("read_sales_data", none), ("generate_product_sales", none),
   ("generate_salesperson_sales", none), ("generate_monthly_sales", none),
   ("generate_ytd_sales", none), ("save_to_excel", none),
   ("print_console_table", none), ("main", none), ("__name__", some nameVal)]

/-- Python name resolution at module level: `none` means the name is not
defined and evaluating it raises `NameError`. -/
def lookupName (env : List (String × Option String)) (x : String) :
    Option (Option String) :=
  match env.find? (fun p => p.1 == x) with
  | some p => some p.2
  | none => none

/-- What evaluating the script's top-level guard can do. -/
inductive ScriptOutcome
  | nameErrorRaised (name : String)
  | ranMain (result : RunOutput × Option Sheets)
  | skipped
deriving DecidableEq

/-- The guard of lines 156–157, `if _name_ == "_main_": main()`: evaluate
the name `_name_`, raising `NameError` if it is undefined; otherwise compare
its value with the string `"_main_"` and call `main` on equality. -/
def runScript (nameVal : String) (w : World) : ScriptOutcome :=
  match lookupName (moduleEnv nameVal) "_name_" with
  | none => ScriptOutcome.nameErrorRaised "_name_"
  | some v =>
    if v = some "_main_" then ScriptOutcome.ranMain (SalesReport.main w)
    else ScriptOutcome.skipped

/-- Witness file for C6: its header lacks exactly `Unit Price`. -/
def c6File : CSVFile := ⟨["Date", "Product", "Quantity", "Salesperson"], []⟩

/-- Witness file for C7: the schema is fine but its single row has an
unparsable date, so nothing survives cleaning. -/
def c7File : CSVFile := ⟨requiredColumns, [bothInvalidRow]⟩

/-- Witness world for C7, with a pre-existing output file. -/
def c7World : World := ⟨FileState.parsed c7File, true, some ⟨[], [], [], []⟩⟩

/-- The enumeration order in which one interpreter run iterates a Python
set of strings (line 48 builds the schema message by joining the
missing-column set).  Under hash randomization that order is a run-dependent
property: it is fixed within a run but varies between runs.  Modelled as a
run-seed-selected rotation of the set's elements — which orders occur is
immaterial, only that different seeds can enumerate the same set in
different orders while membership never changes. -/
def pySetOrder (seed : Nat) (l : List String) : List String :=
  l.rotate seed

/-- Text of one console item (`print` calls of lines 54, 62, 113, 122–123,
131, 153); pure formatting of the structured item. -/
def renderItem : ConsoleItem → String
  | ConsoleItem.banner => "Generating Sales Report..."
  | ConsoleItem.dateWarning n =>
      "Warning: " ++ toString n
        ++ " rows have invalid or missing dates and were removed."
  | ConsoleItem.numericWarning n =>
      "Warning: " ++ toString n
        ++ " rows had invalid/missing Quantity or Unit Price and were removed."
  | ConsoleItem.table t body =>
      "=== " ++ t ++ " ===" ++ String.intercalate " | "
        (body.map (fun r => r.1 ++ " " ++ toString r.2))
  | ConsoleItem.excelSaved p => "Excel report saved as " ++ p
  | ConsoleItem.success => "Sales Report generation completed successfully!"

/-- Text of the terminal error line (`sys.exit` messages).  Only the schema
message depends on the run seed: line 48 joins the missing-column set in
the set iteration order of that interpreter run. -/
def exitMessage (seed : Nat) : ExitReason → String
  | ExitReason.fileNotFound => "Error: File not found."
  | ExitReason.parseError => "Error reading CSV file."
  | ExitReason.schemaError missing =>
      "Missing required columns in CSV: "
        ++ String.intercalate ", " (pySetOrder seed missing)
  | ExitReason.noValidData => "No valid data to process."
  | ExitReason.writeError => "Error writing Excel file."

/-- The console bytes of one run, line by line: the printed items followed
by the terminal error line when the run exited with one; `seed` is the
run's set-iteration order. -/
def consoleBytes (seed : Nat) (out : RunOutput) : List String :=
  out.console.map renderItem
    ++ (match out.exitError with
        | some e => [exitMessage seed e]
        | none => [])

/-- Counterexample file for C8: its header lacks two required columns
(`Unit Price` and `Salesperson`). -/
def c8File : CSVFile := ⟨["Date", "Product", "Quantity"], []⟩

/-- Counterexample world for C8. -/
def c8World : World := ⟨FileState.parsed c8File, true, none⟩

theorem mem_dedupKeys {K : Type} [DecidableEq K] (a : K) :
    ∀ l : List K, a ∈ dedupKeys l ↔ a ∈ l
  | [] => Iff.rfl
  | k :: rest => by
    by_cases h : k ∈ rest
    · rw [dedupKeys, if_pos h, mem_dedupKeys a rest]
      constructor
      · exact fun h2 => List.mem_cons_of_mem _ h2
      · intro h2
        rcases List.mem_cons.mp h2 with h3 | h3
        · exact h3 ▸ h
        · exact h3
    · rw [dedupKeys, if_neg h, List.mem_cons, List.mem_cons, mem_dedupKeys a rest]

theorem nodup_dedupKeys {K : Type} [DecidableEq K] :
    ∀ l : List K, (dedupKeys l).Nodup
  | [] => List.nodup_nil
  | k :: rest => by
    by_cases h : k ∈ rest
    · rw [dedupKeys, if_pos h]
      exact nodup_dedupKeys rest
    · rw [dedupKeys, if_neg h]
      exact List.Nodup.cons (fun hm => h ((mem_dedupKeys k rest).mp hm))
        (nodup_dedupKeys rest)

theorem sum_map_filter_cons {α : Type} (p : α → Bool) (val : α → ℚ) (a : α)
    (l : List α) :
    (((a :: l).filter p).map val).sum
      = (if p a then val a else 0) + ((l.filter p).map val).sum := by
  by_cases h : p a
  · simp [List.filter_cons, h]
  · simp [List.filter_cons, h]

theorem sum_if_mem {K : Type} [DecidableEq K] (v : ℚ) (k0 : Option K) :
    ∀ ks : List K, ks.Nodup →
      (ks.map (fun k => if k0 = some k then v else 0)).sum
        = if k0 ∈ ks.map some then v else 0 := by
  intro ks
  induction ks with
  | nil => intro _; simp
  | cons k ks ih =>
    intro hnd
    have hk : k ∉ ks := (List.nodup_cons.mp hnd).1
    have ih2 := ih (List.nodup_cons.mp hnd).2
    by_cases h : k0 = some k
    · subst h
      have hrest : (ks.map (fun k1 => if k = k1 then v else 0)).sum = 0 := by
        apply List.sum_eq_zero
        intro x hx
        rcases List.mem_map.mp hx with ⟨a, ha, rfl⟩
        rw [if_neg]
        intro he
        apply hk
        rw [he]
        exact ha
      simp [hrest]
    · simp [h, ih2]

theorem sum_groups_eq {K : Type} [DecidableEq K] (key : CleanRow → Option K)
    (ks : List K) (hnd : ks.Nodup) :
    ∀ rows : List CleanRow,
      (ks.map
        (fun k => ((rows.filter (fun r => key r = some k)).map (·.totalSale)).sum)).sum
        = ((rows.filter (fun r => key r ∈ ks.map some)).map (·.totalSale)).sum := by
  intro rows
  induction rows with
  | nil => simp
  | cons r rows ih =>
    simp only [sum_map_filter_cons, List.sum_map_add]
    rw [ih]
    simp only [decide_eq_true_eq]
    rw [sum_if_mem r.totalSale (key r) ks hnd]

theorem sum_groupTotals {K : Type} [DecidableEq K] (key : CleanRow → Option K)
    (le : K → K → Bool) (rows : List CleanRow) :
    ((groupTotals key le rows).map (·.2)).sum
      = ((rows.filter (fun r => (key r).isSome)).map (·.totalSale)).sum := by
  unfold groupTotals
  rw [List.map_map]
  have hnd : ((dedupKeys (rows.filterMap key)).mergeSort le).Nodup :=
    (List.mergeSort_perm (dedupKeys (rows.filterMap key)) le).symm.nodup
      (nodup_dedupKeys _)
  rw [show ((fun x : K × ℚ => x.2) ∘
        (fun k => (k, ((rows.filter (fun r => key r = some k)).map (·.totalSale)).sum)))
      = (fun k => ((rows.filter (fun r => key r = some k)).map (·.totalSale)).sum)
    from rfl]
  rw [sum_groups_eq key _ hnd rows]
  have hfil : rows.filter
      (fun r => key r ∈ List.map some ((dedupKeys (rows.filterMap key)).mergeSort le))
      = rows.filter (fun r => (key r).isSome) := by
    apply List.filter_congr
    intro r hr
    cases hkey : key r with
    | none => simp
    | some k =>
      simp only [Option.isSome_some, decide_eq_true_eq, List.mem_map, Option.some.injEq]
      refine ⟨k, ?_, rfl⟩
      rw [List.mem_mergeSort, mem_dedupKeys]
      exact List.mem_filterMap.mpr ⟨r, hr, hkey⟩
  rw [hfil]

theorem sum_map_snd_mergeSort {K : Type} (le : K × ℚ → K × ℚ → Bool)
    (l : List (K × ℚ)) :
    ((l.mergeSort le).map (·.2)).sum = (l.map (·.2)).sum :=
  ((List.mergeSort_perm l le).map (·.2)).sum_eq

/-- Grand total of the product summary: the rows whose `Product` is present
(`groupby` drops `NaN` keys). -/
theorem productSum_eq (rows : List CleanRow) :
    ((generate_product_sales rows).map (·.2)).sum
      = ((rows.filter (fun r => r.product.isSome)).map (·.totalSale)).sum := by
  unfold generate_product_sales
  rw [sum_map_snd_mergeSort, sum_groupTotals]

/-- Grand total of the salesperson summary: the rows whose `Salesperson` is
present. -/
theorem salespersonSum_eq (rows : List CleanRow) :
    ((generate_salesperson_sales rows).map (·.2)).sum
      = ((rows.filter (fun r => r.salesperson.isSome)).map (·.totalSale)).sum := by
  unfold generate_salesperson_sales
  rw [sum_map_snd_mergeSort, sum_groupTotals]

/-- Grand total of the monthly summary: every cleaned row has a date, so no
row is dropped. -/
theorem monthlySum_eq (rows : List CleanRow) :
    ((monthly_groups rows).map (·.2)).sum = (rows.map (·.totalSale)).sum := by
  unfold monthly_groups
  rw [sum_map_snd_mergeSort, sum_groupTotals]
  simp

/-- Grand total of the yearly summary: every cleaned row has a date, so no
row is dropped. -/
theorem ytdSum_eq (rows : List CleanRow) :
    ((generate_ytd_sales rows).map (·.2)).sum = (rows.map (·.totalSale)).sum := by
  unfold generate_ytd_sales
  rw [sum_map_snd_mergeSort, sum_groupTotals]
  simp


/-- C1 counterexample: a cleaned table (valid dates, numeric quantities and
prices, `Total Sale = Quantity * Unit Price`) on which the product-summary
grand total differs from the per-row grand total, because the one row's
`Product` is `NaN` and `groupby` drops it. -/
theorem c1_counterexample :
    (∀ r ∈ [nanProductRow], r.totalSale = r.quantity * r.unitPrice)
    ∧ ¬ (((generate_product_sales [nanProductRow]).map (·.2)).sum
          = ([nanProductRow].map (·.totalSale)).sum) := by
  constructor
  · intro r hr
    rw [List.mem_singleton] at hr
    subst hr
    norm_num [nanProductRow]
  · norm_num [generate_product_sales, groupTotals, nanProductRow, dedupKeys,
      List.mergeSort, List.filterMap_cons]

/-- C1 (amended): for every cleaned table in which, additionally, every row's
`Product` and `Salesperson` are present, the product-summary grand total and
the salesperson-summary grand total both equal the per-row grand total of
`Total Sale`. -/
theorem c1_total_preservation (rows : List CleanRow)
    (htot : ∀ r ∈ rows, r.totalSale = r.quantity * r.unitPrice)
    (hp : ∀ r ∈ rows, r.product.isSome)
    (hs : ∀ r ∈ rows, r.salesperson.isSome) :
    ((generate_product_sales rows).map (·.2)).sum = (rows.map (·.totalSale)).sum
    ∧ ((generate_salesperson_sales rows).map (·.2)).sum
        = (rows.map (·.totalSale)).sum := by
  constructor
  · rw [productSum_eq, List.filter_eq_self.mpr hp]
  · rw [salespersonSum_eq, List.filter_eq_self.mpr hs]

/-- Witness for C1 (amended) at the spec's worked scenario rows. -/
theorem c1_total_preservation_witness :
    ((generate_product_sales [scenarioRow2]).map (·.2)).sum
        = ([scenarioRow2].map (·.totalSale)).sum
    ∧ ((generate_salesperson_sales [scenarioRow2]).map (·.2)).sum
        = ([scenarioRow2].map (·.totalSale)).sum :=
  c1_total_preservation [scenarioRow2]
    (by simp [scenarioRow2]) (by simp [scenarioRow2]) (by simp [scenarioRow2])

/-- C10: `generate_product_sales` / `generate_salesperson_sales` silently
omit rows with a missing (`NaN`) group key — their grand totals only cover
rows whose key is present — while the monthly and yearly summaries always
cover every row; consequently there is a cleaned table with a missing-product
row whose product-summary grand total is strictly below the per-row grand
total. -/
theorem c10_nan_keys_dropped :
    (∀ rows : List CleanRow,
        ((generate_product_sales rows).map (·.2)).sum
          = ((rows.filter (fun r => r.product.isSome)).map (·.totalSale)).sum)
    ∧ (∀ rows : List CleanRow,
        ((generate_salesperson_sales rows).map (·.2)).sum
          = ((rows.filter (fun r => r.salesperson.isSome)).map (·.totalSale)).sum)
    ∧ (∀ rows : List CleanRow,
        ((monthly_groups rows).map (·.2)).sum = (rows.map (·.totalSale)).sum)
    ∧ (∀ rows : List CleanRow,
        ((generate_ytd_sales rows).map (·.2)).sum = (rows.map (·.totalSale)).sum)
    ∧ nanProductRow.product = none
    ∧ ((generate_product_sales [nanProductRow]).map (·.2)).sum
        < ([nanProductRow].map (·.totalSale)).sum := by
  refine ⟨productSum_eq, salespersonSum_eq, monthlySum_eq, ytdSum_eq, rfl, ?_⟩
  norm_num [generate_product_sales, groupTotals, nanProductRow, dedupKeys,
    List.mergeSort, List.filterMap_cons]

theorem sorted_snd_mergeSort_descTotal {K : Type} (l : List (K × ℚ)) :
    ((l.mergeSort descTotal).map (·.2)).Pairwise (fun a b : ℚ => a ≥ b) := by
  apply List.Pairwise.map
  · intro a b h
    exact of_decide_eq_true h
  · apply List.sorted_mergeSort
    · intro a b c hab hbc
      have h1 : b.2 ≤ a.2 := of_decide_eq_true hab
      have h2 : c.2 ≤ b.2 := of_decide_eq_true hbc
      exact decide_eq_true (le_trans h2 h1)
    · intro a b
      rcases le_total b.2 a.2 with h | h
      · simp [descTotal, h]
      · simp [descTotal, h]

theorem sorted_fst_mergeSort_ymLe (l : List ((Nat × Nat) × ℚ)) :
    ((l.mergeSort (fun a b => ymLe a.1 b.1)).map (·.1)).Pairwise
      (fun a b : Nat × Nat => a.1 < b.1 ∨ (a.1 = b.1 ∧ a.2 ≤ b.2)) := by
  apply List.Pairwise.map
  · intro a b h
    exact of_decide_eq_true h
  · apply List.sorted_mergeSort
    · intro a b c hab hbc
      have h1 := of_decide_eq_true hab
      have h2 := of_decide_eq_true hbc
      apply decide_eq_true
      simp only [ymLe, decide_eq_true_eq] at h1 h2 ⊢
      omega
    · intro a b
      simp only [Bool.or_eq_true, ymLe, decide_eq_true_eq]
      omega

theorem sorted_fst_mergeSort_natLe (l : List (Nat × ℚ)) :
    ((l.mergeSort (fun a b => natLe a.1 b.1)).map (·.1)).Pairwise
      (fun a b : Nat => a ≤ b) := by
  apply List.Pairwise.map
  · intro a b h
    exact of_decide_eq_true h
  · apply List.sorted_mergeSort
    · intro a b c hab hbc
      have h1 := of_decide_eq_true hab
      have h2 := of_decide_eq_true hbc
      apply decide_eq_true
      simp only [natLe, decide_eq_true_eq] at h1 h2 ⊢
      omega
    · intro a b
      simp only [Bool.or_eq_true, natLe, decide_eq_true_eq]
      omega

/-- C5: the product and salesperson summaries are sorted by total descending;
the monthly summary is sorted by its `(year, month)` key ascending (its
string column listing those keys in that same order); the yearly summary is
sorted by year ascending. -/
theorem c5_sort_orders (rows : List CleanRow) :
    List.Sorted (fun a b : ℚ => a ≥ b) ((generate_product_sales rows).map (·.2))
    ∧ List.Sorted (fun a b : ℚ => a ≥ b)
        ((generate_salesperson_sales rows).map (·.2))
    ∧ List.Sorted (fun a b : Nat × Nat => a.1 < b.1 ∨ (a.1 = b.1 ∧ a.2 ≤ b.2))
        ((monthly_groups rows).map (·.1))
    ∧ generate_monthly_sales rows
        = (monthly_groups rows).map (fun g => (yearMonthStr g.1, g.2))
    ∧ List.Sorted (fun a b : Nat => a ≤ b) ((generate_ytd_sales rows).map (·.1)) :=
  ⟨sorted_snd_mergeSort_descTotal _, sorted_snd_mergeSort_descTotal _,
    sorted_fst_mergeSort_ymLe _, rfl, sorted_fst_mergeSort_natLe _⟩

theorem filter_dateSome_of_no_invalid (rows : List RawRow)
    (h : (rows.filter (fun r => r.date.isNone)).length = 0) :
    rows.filter (fun r => r.date.isSome) = rows := by
  rw [List.filter_eq_self]
  intro a ha
  have hnil := List.length_eq_zero.mp h
  have hnone := List.filter_eq_nil_iff.mp hnil a ha
  cases hd : a.date with
  | none => rw [hd] at hnone; simp at hnone
  | some d => rfl

/-- The two warning tallies of `read_sales_data`, in closed form: the date
tally counts rows with an unparsable date; the numeric tally counts, among
the rows whose date parsed, one per unparsable `Quantity` plus one per
unparsable `Unit Price` — a row whose date failed never reaches the numeric
tally. -/
theorem warning_tallies (rows : List RawRow) :
    (readSalesDataRows rows).dateWarnings
        = (rows.filter (fun r => r.date.isNone)).length
    ∧ (readSalesDataRows rows).numericWarnings
        = ((rows.filter (fun r => r.date.isSome)).filter
            (fun r => r.quantity.isNone)).length
          + ((rows.filter (fun r => r.date.isSome)).filter
            (fun r => r.unitPrice.isNone)).length := by
  refine ⟨rfl, ?_⟩
  unfold readSalesDataRows
  by_cases h : (rows.filter (fun r => r.date.isNone)).length > 0
  · simp only [h, if_pos]
  · have h0 : (rows.filter (fun r => r.date.isNone)).length = 0 := by omega
    rw [filter_dateSome_of_no_invalid rows h0]
    simp only [h0, gt_iff_lt, lt_irrefl, if_neg, Nat.not_lt_zero, not_false_iff]


/-- C2 counterexample: on a table holding exactly one row that is invalid in
both respects, the date tally is 1 but the numeric tally is 0 — the row is
not counted once in each tally as the claim states. -/
theorem c2_counterexample :
    (readSalesDataRows [bothInvalidRow]).dateWarnings = 1
    ∧ (readSalesDataRows [bothInvalidRow]).numericWarnings = 0
    ∧ ¬ (readSalesDataRows [bothInvalidRow]).numericWarnings = 1 := by decide

/-- C2 (amended): coercion is dates first, then numerics, and a row with an
unparsable date is dropped before numeric coercion; it is counted exactly
once in the date tally and contributes nothing to the numeric tally even
when its `Quantity` or `Unit Price` is also unparsable.  The numeric tally
only ever counts rows whose date parsed. -/
theorem c2_coercion_order (rows : List RawRow) :
    (readSalesDataRows rows).dateWarnings
        = (rows.filter (fun r => r.date.isNone)).length
    ∧ (readSalesDataRows rows).numericWarnings
        = ((rows.filter (fun r => r.date.isSome)).filter
            (fun r => r.quantity.isNone)).length
          + ((rows.filter (fun r => r.date.isSome)).filter
            (fun r => r.unitPrice.isNone)).length
    ∧ ∀ (prod : Option String) (q u : Option ℚ) (sp : Option String),
        (readSalesDataRows (rows ++ [⟨none, prod, q, u, sp⟩])).dateWarnings
            = (readSalesDataRows rows).dateWarnings + 1
        ∧ (readSalesDataRows (rows ++ [⟨none, prod, q, u, sp⟩])).numericWarnings
            = (readSalesDataRows rows).numericWarnings := by
  refine ⟨(warning_tallies rows).1, (warning_tallies rows).2, ?_⟩
  intro prod q u sp
  have hw := warning_tallies (rows ++ [RawRow.mk none prod q u sp])
  constructor
  · rw [hw.1, (warning_tallies rows).1, List.filter_append]
    simp
  · rw [hw.2, (warning_tallies rows).2, List.filter_append]
    simp

theorem mkClean_eq_none_of_invalid (r : RawRow)
    (h : r.date.isNone ∨ r.quantity.isNone ∨ r.unitPrice.isNone) :
    mkClean r = none := by
  rcases r with ⟨d, p, q, u, s⟩
  cases d <;> cases q <;> cases u <;> simp_all [mkClean]

theorem filterMap_mkClean_filter (p : RawRow → Bool)
    (hp : ∀ r, p r = false → mkClean r = none) :
    ∀ rows : List RawRow,
      (rows.filter p).filterMap mkClean = rows.filterMap mkClean := by
  intro rows
  induction rows with
  | nil => rfl
  | cons r rows ih =>
    cases hpr : p r
    · rw [List.filter_cons, if_neg (by simp [hpr]), ih, List.filterMap_cons,
        hp r hpr]
    · rw [List.filter_cons, if_pos (by simp [hpr]), List.filterMap_cons,
        List.filterMap_cons, ih]

/-- The cleaned table `read_sales_data` returns is exactly the input rows
whose three coerced fields are all valid, each with `Total Sale` computed:
the two `dropna` stages remove nothing else. -/
theorem cleaned_eq_filterMap (rows : List RawRow) :
    (readSalesDataRows rows).cleaned = rows.filterMap mkClean := by
  unfold readSalesDataRows
  have hdate : ∀ r : RawRow, (r.date.isSome : Bool) = false → mkClean r = none := by
    intro r h
    apply mkClean_eq_none_of_invalid
    left
    cases hd : r.date
    · rfl
    · rw [hd] at h; simp at h
  have hnum : ∀ r : RawRow, (r.quantity.isSome && r.unitPrice.isSome) = false →
      mkClean r = none := by
    intro r h
    rcases Bool.and_eq_false_iff.mp h with h2 | h2
    · apply mkClean_eq_none_of_invalid
      right; left
      cases hq : r.quantity
      · rfl
      · rw [hq] at h2; simp at h2
    · apply mkClean_eq_none_of_invalid
      right; right
      cases hu : r.unitPrice
      · rfl
      · rw [hu] at h2; simp at h2
  dsimp only
  split
  · split
    · rw [filterMap_mkClean_filter _ hnum, filterMap_mkClean_filter _ hdate]
    · rw [filterMap_mkClean_filter _ hdate]
  · split
    · rw [filterMap_mkClean_filter _ hnum]
    · rfl

theorem length_filters_as_sum (p q : RawRow → Bool) (l : List RawRow) :
    (l.filter p).length + (l.filter q).length
      = (l.map (fun a => (if p a then 1 else 0) + (if q a then 1 else 0))).sum := by
  induction l with
  | nil => rfl
  | cons a l ih =>
    by_cases hp : p a <;> by_cases hq : q a <;>
      simp [List.filter_cons, hp, hq, ← ih] <;> omega


/-- C3 counterexample: a row with a valid date and both `Quantity` and
`Unit Price` unparsable is excluded, but it contributes 2 to the numeric
tally, not exactly 1 as the claim states. -/
theorem c3_counterexample :
    (readSalesDataRows [bothNumericInvalidRow]).cleaned = []
    ∧ (readSalesDataRows [bothNumericInvalidRow]).numericWarnings = 2
    ∧ ¬ (readSalesDataRows [bothNumericInvalidRow]).numericWarnings = 1 := by decide

/-- C3 (amended): a row with a valid date but unparsable `Quantity` or
`Unit Price` is excluded from the returned table, and it contributes 1 to
the numeric tally for each of the two fields that is unparsable — so 1 when
exactly one of them fails, 2 when both fail. -/
theorem c3_numeric_invalid_excluded (rows : List RawRow) :
    (readSalesDataRows rows).cleaned = rows.filterMap mkClean
    ∧ (∀ r : RawRow,
        (r.quantity.isSome ∧ r.unitPrice.isSome) ∨ mkClean r = none)
    ∧ (readSalesDataRows rows).numericWarnings
        = ((rows.filter (fun r => r.date.isSome)).map
            (fun r => (if r.quantity.isNone then 1 else 0)
              + (if r.unitPrice.isNone then 1 else 0))).sum := by
  refine ⟨cleaned_eq_filterMap rows, ?_, ?_⟩
  · intro r
    cases hq : r.quantity with
    | none => exact Or.inr (mkClean_eq_none_of_invalid r (by simp [hq]))
    | some q =>
      cases hu : r.unitPrice with
      | none => exact Or.inr (mkClean_eq_none_of_invalid r (by simp [hu]))
      | some u => exact Or.inl (by simp [hq, hu])
  · rw [(warning_tallies rows).2, length_filters_as_sum]


/-- C4 counterexample: calling `generate_monthly_sales` on a fresh cleaned
frame changes the frame — a `YearMonth` column is added to the input. -/
theorem c4_counterexample :
    ¬ ((generate_monthly_sales_df (freshDF [])).2 = freshDF [])
    ∧ (generate_monthly_sales_df (freshDF [])).2.derivedCols = ["YearMonth"]
    ∧ (generate_ytd_sales_df (freshDF [])).2.derivedCols = ["Year"] := by
  refine ⟨?_, rfl, rfl⟩
  intro h
  have h2 : (generate_monthly_sales_df (freshDF [])).2.derivedCols
      = (freshDF [] : DataFrame).derivedCols := by rw [h]
  simp [generate_monthly_sales_df, setCol, freshDF] at h2

/-- C4 (amended): the four aggregation functions are deterministic reads of
the frame's rows, and the product and salesperson summaries leave the input
frame unchanged; but the monthly and yearly summaries write a derived
column (`YearMonth`, resp. `Year`) onto the caller's frame — the rows and
all other columns are untouched, yet the input frame is not unchanged. -/
theorem c4_frame_effects (df : DataFrame) :
    (generate_product_sales_df df).1 = generate_product_sales df.rows
    ∧ (generate_product_sales_df df).2 = df
    ∧ (generate_salesperson_sales_df df).1 = generate_salesperson_sales df.rows
    ∧ (generate_salesperson_sales_df df).2 = df
    ∧ (generate_monthly_sales_df df).1 = generate_monthly_sales df.rows
    ∧ (generate_monthly_sales_df df).2.rows = df.rows
    ∧ (generate_monthly_sales_df df).2.derivedCols
        = (if "YearMonth" ∈ df.derivedCols then df.derivedCols
           else df.derivedCols ++ ["YearMonth"])
    ∧ (generate_ytd_sales_df df).1 = generate_ytd_sales df.rows
    ∧ (generate_ytd_sales_df df).2.rows = df.rows
    ∧ (generate_ytd_sales_df df).2.derivedCols
        = (if "Year" ∈ df.derivedCols then df.derivedCols
           else df.derivedCols ++ ["Year"]) := by
  refine ⟨rfl, rfl, rfl, rfl, rfl, ?_, ?_, rfl, ?_, ?_⟩ <;>
    simp only [generate_monthly_sales_df, generate_ytd_sales_df, setCol] <;>
    split <;> rfl



theorem mem_warningItems (lr : LoadResult) (i : ConsoleItem)
    (h : i ∈ warningItems lr) :
    (∃ n, i = ConsoleItem.dateWarning n) ∨ (∃ n, i = ConsoleItem.numericWarning n) := by
  unfold warningItems at h
  rcases List.mem_append.mp h with h2 | h2 <;> split at h2 <;>
    simp only [List.mem_singleton, List.not_mem_nil] at h2
  · exact Or.inl ⟨lr.dateWarnings, h2⟩
  · exact Or.inr ⟨lr.numericWarnings, h2⟩

/-- C6: a parsed input whose header lacks at least one required column makes
the run exit with the schema error before processing any row — the error
carries exactly the missing required column names, the console shows only
the banner (no warnings, no tables), and the output file is untouched. -/
theorem c6_schema_error (f : CSVFile) (w : World)
    (hw : w.file = FileState.parsed f)
    (hmiss : ∃ c ∈ requiredColumns, ¬ c ∈ f.header) :
    (SalesReport.main w).1.exitError
        = some (ExitReason.schemaError (missingColumns f.header))
    ∧ missingColumns f.header ≠ []
    ∧ (∀ c, c ∈ missingColumns f.header ↔ (c ∈ requiredColumns ∧ ¬ c ∈ f.header))
    ∧ (SalesReport.main w).1.console = [ConsoleItem.banner]
    ∧ (SalesReport.main w).1.written = none
    ∧ (SalesReport.main w).2 = w.prevOutput := by
  have hne : missingColumns f.header ≠ [] := by
    rcases hmiss with ⟨c, hc, hnotin⟩
    intro h
    have hcm : c ∈ missingColumns f.header := by
      unfold missingColumns
      rw [List.mem_filter]
      exact ⟨hc, by simpa using hnotin⟩
    rw [h] at hcm
    simp at hcm
  have hread : read_sales_data w.file
      = Except.error (ExitReason.schemaError (missingColumns f.header)) := by
    rw [hw]
    simp only [read_sales_data]
    rw [if_neg hne]
  have hmain : SalesReport.main w
      = ⟨⟨[ConsoleItem.banner],
          some (ExitReason.schemaError (missingColumns f.header)), none⟩,
         w.prevOutput⟩ := by
    simp only [SalesReport.main, runCore, hread]
  refine ⟨by rw [hmain], hne, ?_, by rw [hmain], by rw [hmain], by rw [hmain]⟩
  intro c
  unfold missingColumns
  rw [List.mem_filter]
  simp


/-- Witness for C6 at a concrete file missing the `Unit Price` column. -/
theorem c6_schema_error_witness :
    (SalesReport.main ⟨FileState.parsed c6File, true, none⟩).1.exitError
        = some (ExitReason.schemaError (missingColumns c6File.header))
    ∧ missingColumns c6File.header ≠ []
    ∧ (∀ c, c ∈ missingColumns c6File.header
        ↔ (c ∈ requiredColumns ∧ ¬ c ∈ c6File.header))
    ∧ (SalesReport.main ⟨FileState.parsed c6File, true, none⟩).1.console
        = [ConsoleItem.banner]
    ∧ (SalesReport.main ⟨FileState.parsed c6File, true, none⟩).1.written = none
    ∧ (SalesReport.main ⟨FileState.parsed c6File, true, none⟩).2
        = (⟨FileState.parsed c6File, true, none⟩ : World).prevOutput :=
  c6_schema_error c6File ⟨FileState.parsed c6File, true, none⟩ rfl (by decide)

/-- C7: when every row is dropped during cleaning, the run exits with the
"no valid data" error after printing only the banner and the warnings — no
summary table, no save confirmation, no success banner — and the output
file is untouched. -/
theorem c7_no_valid_data (f : CSVFile) (w : World)
    (hw : w.file = FileState.parsed f)
    (hschema : missingColumns f.header = [])
    (hempty : (readSalesDataRows f.rows).cleaned = []) :
    (SalesReport.main w).1.exitError = some ExitReason.noValidData
    ∧ (SalesReport.main w).1.written = none
    ∧ (SalesReport.main w).2 = w.prevOutput
    ∧ (∀ t b, ConsoleItem.table t b ∉ (SalesReport.main w).1.console)
    ∧ ConsoleItem.success ∉ (SalesReport.main w).1.console
    ∧ (∀ p, ConsoleItem.excelSaved p ∉ (SalesReport.main w).1.console) := by
  have hread : read_sales_data w.file
      = Except.ok (readSalesDataRows f.rows) := by
    rw [hw]
    simp only [read_sales_data]
    rw [if_pos hschema]
  have hmain : SalesReport.main w
      = ⟨⟨ConsoleItem.banner :: warningItems (readSalesDataRows f.rows),
          some ExitReason.noValidData, none⟩, w.prevOutput⟩ := by
    simp only [SalesReport.main, runCore, hread, hempty, if_pos]
  have hcons : ∀ i ∈ (SalesReport.main w).1.console,
      i = ConsoleItem.banner
      ∨ (∃ n, i = ConsoleItem.dateWarning n)
      ∨ (∃ n, i = ConsoleItem.numericWarning n) := by
    rw [hmain]
    intro i hi
    rcases List.mem_cons.mp hi with h | h
    · exact Or.inl h
    · rcases mem_warningItems _ _ h with h2 | h2
      · exact Or.inr (Or.inl h2)
      · exact Or.inr (Or.inr h2)
  refine ⟨by rw [hmain], by rw [hmain], by rw [hmain], ?_, ?_, ?_⟩
  · intro t b hmem
    rcases hcons _ hmem with h | ⟨n, h⟩ | ⟨n, h⟩ <;> exact absurd h (by simp)
  · intro hmem
    rcases hcons _ hmem with h | ⟨n, h⟩ | ⟨n, h⟩ <;> exact absurd h (by simp)
  · intro p hmem
    rcases hcons _ hmem with h | ⟨n, h⟩ | ⟨n, h⟩ <;> exact absurd h (by simp)



/-- Witness for C7 at a concrete file that is empty after cleaning. -/
theorem c7_no_valid_data_witness :
    (SalesReport.main c7World).1.exitError = some ExitReason.noValidData
    ∧ (SalesReport.main c7World).1.written = none
    ∧ (SalesReport.main c7World).2 = c7World.prevOutput
    ∧ (∀ t b, ConsoleItem.table t b ∉ (SalesReport.main c7World).1.console)
    ∧ ConsoleItem.success ∉ (SalesReport.main c7World).1.console
    ∧ (∀ p, ConsoleItem.excelSaved p ∉ (SalesReport.main c7World).1.console) :=
  c7_no_valid_data c7File c7World rfl (by decide) (by decide)

/-- C8 counterexample: on a fixed input file whose header lacks two
required columns, two interpreter runs (differing only in their set
iteration order) print the same missing-column set in different orders —
the console output of the two runs is not byte-identical. -/
theorem c8_counterexample :
    pySetOrder 0 (missingColumns c8File.header) = ["Unit Price", "Salesperson"]
    ∧ pySetOrder 1 (missingColumns c8File.header) = ["Salesperson", "Unit Price"]
    ∧ ¬ (consoleBytes 0 (SalesReport.main c8World).1
          = consoleBytes 1 (SalesReport.main c8World).1) := by decide

/-- C8 (amended): for a fixed input file and writable output path the run
is structurally deterministic — same console items, same exit condition,
same written sheets, and the same final output file whenever a run writes
it — and the console bytes are identical whenever the two runs share one
set-iteration order; across different interpreter runs the bytes still
agree whenever the run does not end in the schema error, the sole byte-level
divergence being the enumeration order of the missing-column set in the
schema error message of line 48. -/
theorem c8_deterministic (w1 w2 : World) (seed1 seed2 : Nat)
    (hfile : w1.file = w2.file) (hwrite : w1.writeOk = w2.writeOk) :
    (SalesReport.main w1).1 = (SalesReport.main w2).1
    ∧ (∀ s, (SalesReport.main w1).1.written = some s →
        ((SalesReport.main w1).2 = some s ∧ (SalesReport.main w2).2 = some s))
    ∧ (seed1 = seed2 →
        consoleBytes seed1 (SalesReport.main w1).1
          = consoleBytes seed2 (SalesReport.main w2).1)
    ∧ ((∀ missing, (SalesReport.main w1).1.exitError
          ≠ some (ExitReason.schemaError missing)) →
        consoleBytes seed1 (SalesReport.main w1).1
          = consoleBytes seed2 (SalesReport.main w2).1) := by
  have hcore : runCore w1.file w1.writeOk = runCore w2.file w2.writeOk := by
    rw [hfile, hwrite]
  have h1 : (SalesReport.main w1).1 = runCore w1.file w1.writeOk := rfl
  have h2 : (SalesReport.main w2).1 = runCore w2.file w2.writeOk := rfl
  have hout : (SalesReport.main w1).1 = (SalesReport.main w2).1 := by
    rw [h1, h2, hcore]
  refine ⟨hout, ?_, ?_, ?_⟩
  · intro s hs
    have hs1 : (runCore w1.file w1.writeOk).written = some s := by
      rw [← h1]; exact hs
    have hs2 : (runCore w2.file w2.writeOk).written = some s := by
      rw [← hcore]; exact hs1
    constructor
    · show (match (runCore w1.file w1.writeOk).written with
            | some s => some s
            | none => w1.prevOutput) = some s
      rw [hs1]
    · show (match (runCore w2.file w2.writeOk).written with
            | some s => some s
            | none => w2.prevOutput) = some s
      rw [hs2]
  · intro hseed
    rw [hseed, hout]
  · intro hns
    rw [← hout]
    unfold consoleBytes
    congr 1
    cases he : (SalesReport.main w1).1.exitError with
    | none => rfl
    | some e =>
      cases e with
      | fileNotFound => rfl
      | parseError => rfl
      | schemaError m => exact absurd he (hns m)
      | noValidData => rfl
      | writeError => rfl

/-- Witness for C8 (amended): two worlds sharing the input file and
writability but holding different pre-existing output files, both runs with
set-iteration seed 0. -/
theorem c8_deterministic_witness :
    (SalesReport.main ⟨FileState.parsed c7File, true, none⟩).1
        = (SalesReport.main ⟨FileState.parsed c7File, true, some ⟨[], [], [], []⟩⟩).1
    ∧ (∀ s, (SalesReport.main ⟨FileState.parsed c7File, true, none⟩).1.written
          = some s →
        ((SalesReport.main ⟨FileState.parsed c7File, true, none⟩).2 = some s
          ∧ (SalesReport.main
              ⟨FileState.parsed c7File, true, some ⟨[], [], [], []⟩⟩).2 = some s))
    ∧ ((0 : Nat) = 0 →
        consoleBytes 0 (SalesReport.main ⟨FileState.parsed c7File, true, none⟩).1
          = consoleBytes 0
              (SalesReport.main
                ⟨FileState.parsed c7File, true, some ⟨[], [], [], []⟩⟩).1)
    ∧ ((∀ missing,
          (SalesReport.main ⟨FileState.parsed c7File, true, none⟩).1.exitError
            ≠ some (ExitReason.schemaError missing)) →
        consoleBytes 0 (SalesReport.main ⟨FileState.parsed c7File, true, none⟩).1
          = consoleBytes 0
              (SalesReport.main
                ⟨FileState.parsed c7File, true, some ⟨[], [], [], []⟩⟩).1) :=
  c8_deterministic ⟨FileState.parsed c7File, true, none⟩
    ⟨FileState.parsed c7File, true, some ⟨[], [], [], []⟩⟩ 0 0 rfl rfl

/-- C9: the top-level guard compares the undefined name `_name_`, so running
the file as a script raises `NameError` before the comparison — whatever
value `__name__` holds and whatever the input file contains, `main` is never
called and no report of any kind is produced. -/
theorem c9_guard_name_error (nameVal : String) (w : World) :
    runScript nameVal w = ScriptOutcome.nameErrorRaised "_name_"
    ∧ ∀ result, runScript nameVal w ≠ ScriptOutcome.ranMain result := by
  have hlook : lookupName (moduleEnv nameVal) "_name_" = none := by
    simp [lookupName, moduleEnv, List.find?]
  constructor
  · simp [runScript, hlook]
  · intro result
    simp [runScript, hlook]
